import Mathlib

/-!
Shallow embedding of the `slog` logging package (slog.go) and proofs about it.

The embedding has three parts:

1. A sequential model of the logger hierarchy: the data carried by each
   handle (`Handle`), the root's mutable fields (`RootSt`), and the pure
   part of `New`, `SetLevel`, `skip`, `Info`/`Warn`/`Err` (gate decision and
   the entry each call would construct).

2. A small-step operational model (`DSys`, `Step`, `run`) of the dispatch
   pipeline: the unbuffered hand-off channel, the consumer goroutine started
   by `Start`, `Stop` (which closes the channel and the stop channel), and
   `SetReporter` (stop, wait, install, restart).  Each `Step` is one atomic
   action of some goroutine; `run` folds a chosen interleaving.  Go panics
   (send on a closed channel, close of a closed channel, method call on a
   nil interface) are modelled by a `panicked` flag that freezes the state.

3. The reporter layer: `logReporter` / `NewLogReporter` / `Stdout` from the
   source, and a fan-out reporter `Reporters` modelled from the spec (the
   function is referenced by the documentation but its code is not in the
   sources at hand).

`time.Time` fields (`When`) are not modelled: no claim depends on real time.
Go `[]interface{}` data values are modelled as `List String` (they are
opaque to the core).
-/

namespace Slog

/-- Logging level, mirroring the Go enum
`Nothing = 0 < Err = 1 < Warn = 2 < Info = 3 < Everything = 4` (a `uint8`,
compared with `<` by the code). -/
inductive Level where
  | Nothing
  | Err
  | Warn
  | Info
  | Everything
deriving DecidableEq, BEq, Repr

/-- The numeric value of a level, as laid down by `iota` in the source. -/
def Level.toNat : Level → Nat
  | .Nothing => 0
  | .Err => 1
  | .Warn => 2
  | .Info => 3
  | .Everything => 4

/-- A log entry (Go struct `Log`): level, data arguments, source path.
The `When time.Time` field is omitted (not modelled). -/
structure Log where
  Level : Level
  Data : List String
  Source : List String
deriving DecidableEq, Repr

/-! ## Sequential model of the handle hierarchy

A `logger` value in Go holds `level`, `src` and a pointer `root`.  In a
single-root hierarchy a handle is either the root itself or a child value
carrying its own `level` snapshot and `src` path; the root's own mutable
fields live in `RootSt`. -/

/-- The root logger's fields that `SetLevel` mutates: its `level` and its
`src` path. -/
structure RootSt where
  level : Level
  src : List String
deriving DecidableEq, Repr

/-- A handle into one hierarchy: the root itself, or a child with its own
`level` field (copied at creation) and its own `src` path. -/
inductive Handle where
  | root
  | child (level : Level) (src : List String)
deriving DecidableEq, Repr

/-- The value of the `level` field of handle `h` (for the root handle this
is the root's mutable field). -/
def hlevel (r : RootSt) : Handle → Level
  | .root => r.level
  | .child l _ => l

/-- The value of the `src` field of handle `h`. -/
def hsrc (r : RootSt) : Handle → List String
  | .root => r.src
  | .child _ s => s

/-- `logger.skip` from the source: under the root's mutex it evaluates
`l.level < level` — the receiving handle's OWN `level` field compared to the
requested level. -/
def skip (r : RootSt) (h : Handle) (level : Level) : Bool :=
  decide ((hlevel r h).toNat < level.toNat)

/-- Package-level `New(source, level)`: the root's state after construction
(`src = []string{source}`, the given level).  The pipeline part of
construction is modelled separately by `DSys.mk0`. -/
def New (source : String) (level : Level) : RootSt :=
  { level := level, src := [source] }

/-- Method `(l *logger) New(source)`: a child whose `level` is a copy of the
receiver's current `level` field and whose `src` is the receiver's path with
`source` appended. -/
def Handle.New (r : RootSt) (h : Handle) (source : String) : Handle :=
  .child (hlevel r h) (hsrc r h ++ [source])

/-- `SetLevel` from the source: writes `l.root.level` (only the root's
field; no child handle's `level` field is touched). -/
def SetLevel (r : RootSt) (level : Level) : RootSt :=
  { r with level := level }

/-- The pure part of an `Info`/`Warn`/`Err` call at level `lv`: the boolean
returned and the entry (if any) that the call hands to the channel. -/
def emitAt (r : RootSt) (h : Handle) (lv : Level) (a : List String) :
    Bool × Option Log :=
  if skip r h lv then (false, none)
  else if a = [] then (true, none)
  else (true, some { Level := lv, Data := a, Source := hsrc r h })

/-- `logger.Info`. -/
def Info (r : RootSt) (h : Handle) (a : List String) : Bool × Option Log :=
  emitAt r h .Info a

/-- `logger.Warn`. -/
def Warn (r : RootSt) (h : Handle) (a : List String) : Bool × Option Log :=
  emitAt r h .Warn a

/-- `logger.Err`. -/
def Err (r : RootSt) (h : Handle) (a : List String) : Bool × Option Log :=
  emitAt r h .Err a

/-- The boolean an emit call returns is exactly the negated gate check. -/
theorem emitAt_fst (r : RootSt) (h : Handle) (lv : Level) (a : List String) :
    (emitAt r h lv a).fst = !(skip r h lv) := by
  unfold emitAt
  rcases hs : skip r h lv <;> rcases eq_or_ne a [] with ha | ha <;>
    simp [hs, ha]

/-! ## Operational model of the dispatch pipeline

`Start` allocates a fresh unbuffered channel and stop channel and spawns a
consumer goroutine running `for item := range c { root.r.Log(item) }`.
Channels are identified by a generation number `gen`; `Start` bumps it, so a
goroutine spawned for an older generation keeps ranging over its (by then
closed) old channel.  The consumer's loop body is split into its two atomic
actions: the rendezvous receive (merged with the producer's send, since the
channel is unbuffered) and the later read of `root.r` followed by the
`Log` call.  Reporters are identified by `Nat` ids; `r = none` is Go's nil
interface.  A Go runtime panic freezes the whole state. -/

/-- One consumer goroutine: the channel generation it ranges over, the item
it has received but not yet handed to the reporter, and whether it has
exited its loop. -/
structure Consumer where
  gen : Nat
  holding : Option Log
  alive : Bool
deriving DecidableEq, Repr

/-- The shared state of one root's pipeline plus the observable history:
delivery log (reporter id with each delivered entry), the booleans returned
by completed emit calls, and the panic flag. -/
structure DSys where
  rootLevel : Level
  rootSrc : List String
  r : Option Nat
  gen : Nat
  cClosed : Bool
  stopClosed : Bool
  consumers : List Consumer
  delivered : List (Nat × Log)
  results : List Bool
  panicked : Bool
deriving DecidableEq, Repr

/-- The root's fields as seen by the sequential functions (`skip`, `hsrc`). -/
def DSys.asRoot (s : DSys) : RootSt :=
  { level := s.rootLevel, src := s.rootSrc }

/-- Replace the consumer at index `i`. -/
def modifyAt (l : List Consumer) (i : Nat) (f : Consumer → Consumer) :
    List Consumer :=
  l.mapIdx (fun j c => if j = i then f c else c)

/-- `logger.Start`: fresh channel (new generation, open), fresh stop
channel (open), and a new consumer goroutine ranging over the new channel. -/
def DSys.start (s : DSys) : DSys :=
  { s with
    gen := s.gen + 1, cClosed := false, stopClosed := false,
    consumers := s.consumers ++ [⟨s.gen + 1, none, true⟩] }

/-- Package-level `New(source, level)`, pipeline part: fields zeroed, then
`Start` — so a fresh root is running, with `r` still the nil interface. -/
def DSys.mk0 (source : String) (level : Level) : DSys :=
  DSys.start
    { rootLevel := level, rootSrc := [source], r := none, gen := 0,
      cClosed := true, stopClosed := true, consumers := [], delivered := [],
      results := [], panicked := false }

/-- `logger.Stop`: `close(root.c)` then `close(root.stopChan)`,
unconditionally.  Closing an already-closed Go channel panics. -/
def DSys.stopStep (s : DSys) : DSys :=
  if s.cClosed then { s with panicked := true }
  else
    let s1 := { s with cClosed := true }
    if s1.stopClosed then { s1 with panicked := true }
    else { s1 with stopClosed := true }

/-- An `Info`/`Warn`/`Err` call by handle `h` with arguments `a`, run to
completion as one atomic action: gate check (`skip`), early `true` return on
zero arguments, then the channel send — a panic if the current channel is
closed, a rendezvous with a waiting current-generation consumer otherwise.
With no waiting consumer the producer stays blocked in the send (no state
change, no result recorded). -/
def DSys.emit (s : DSys) (h : Handle) (lv : Level) (a : List String) : DSys :=
  if s.panicked then s
  else if skip s.asRoot h lv then { s with results := s.results ++ [false] }
  else if a = [] then { s with results := s.results ++ [true] }
  else if s.cClosed then { s with panicked := true }
  else
    match s.consumers.findIdx?
        (fun c => c.gen == s.gen && c.alive && c.holding.isNone) with
    | some i =>
        { s with
          consumers := modifyAt s.consumers i
            (fun c => { c with
              holding := some { Level := lv, Data := a, Source := hsrc s.asRoot h } }),
          results := s.results ++ [true] }
    | none => s

/-- The consumer's loop body after the receive: read `root.r` NOW and call
`Log` on it.  A nil interface (`none`) makes the method call panic. -/
def DSys.deliver (s : DSys) (i : Nat) : DSys :=
  if s.panicked then s
  else
    match s.consumers[i]? with
    | some c =>
        match c.holding with
        | some e =>
            match s.r with
            | none => { s with panicked := true }
            | some rid =>
                { s with
                  delivered := s.delivered ++ [(rid, e)],
                  consumers := modifyAt s.consumers i
                    (fun c => { c with holding := none }) }
        | none => s
    | none => s

/-- A consumer whose own channel generation is closed, and which holds no
item, observes closure in `range` and exits its loop. -/
def DSys.exitStep (s : DSys) (i : Nat) : DSys :=
  if s.panicked then s
  else
    match s.consumers[i]? with
    | some c =>
        if c.holding.isNone &&
            (c.gen < s.gen || (c.gen == s.gen && s.cClosed)) then
          { s with
            consumers := modifyAt s.consumers i
              (fun c => { c with alive := false }) }
        else s
    | none => s

/-- `logger.SetReporter`: `Stop(stop.NoWait)`, then `<-root.StopChan()`
(which `Stop` has already closed, so it returns at once), then install the
reporter, then `Start`.  Run as one compound action of the calling
goroutine. -/
def DSys.setReporter (s : DSys) (rid : Nat) : DSys :=
  if s.panicked then s
  else
    let s1 := s.stopStep
    if s1.panicked then s1
    else DSys.start { s1 with r := some rid }

/-- One atomic action of some goroutine. -/
inductive Step where
  | emit (h : Handle) (lv : Level) (a : List String)
  | deliver (i : Nat)
  | exitC (i : Nat)
  | stop
  | waitDone
  | setReporter (rid : Nat)

/-- Execute one step.  `waitDone` models a goroutine whose `<-StopChan()`
completes; it is an observation only, enabled exactly when `stopClosed`. -/
def stepRun (s : DSys) : Step → DSys
  | .emit h lv a => s.emit h lv a
  | .deliver i => s.deliver i
  | .exitC i => s.exitStep i
  | .stop => if s.panicked then s else s.stopStep
  | .waitDone => s
  | .setReporter rid => s.setReporter rid

/-- Fold an interleaving of atomic actions. -/
def run (s : DSys) (tr : List Step) : DSys :=
  tr.foldl stepRun s

/-- Claim C1, evaluated on the code at the failing input.  Root created with
level `Info`; a child is created; the root then calls `SetLevel Nothing`.
The claim says every subsequent gate check on every handle of the root
(children created before the call included) is decided against `Nothing`,
so both gates should answer `false`.  In the code `skip` reads the handle's
OWN `level` field while `SetLevel` only writes the root's field, so the
pre-existing child's gate still answers `true`; only the root's own gate
answers `false`. -/
theorem c1_child_gate_ignores_setLevel :
    (Info (SetLevel (New "parent" Level.Info) Level.Nothing)
        (Handle.New (New "parent" Level.Info) Handle.root "child") []).fst
      = true ∧
    (Info (SetLevel (New "parent" Level.Info) Level.Nothing)
        Handle.root []).fst = false := by
  decide

/-- Claim C6: for every threshold `T` and request level `L ∈ {Err, Warn,
Info}`, the gate of a root logger with threshold `T` permits `L` iff
`T ≥ L` in the `Nothing < Err < Warn < Info < Everything` order, whatever
the argument list; in particular `Nothing` refuses and `Everything` grants
all three. -/
theorem c6_gate_iff_threshold_ge (T : Level) (src a : List String) :
    (Err ⟨T, src⟩ Handle.root a).fst = decide (Level.Err.toNat ≤ T.toNat) ∧
    (Warn ⟨T, src⟩ Handle.root a).fst = decide (Level.Warn.toNat ≤ T.toNat) ∧
    (Info ⟨T, src⟩ Handle.root a).fst = decide (Level.Info.toNat ≤ T.toNat) := by
  refine ⟨?_, ?_, ?_⟩ <;>
    simp only [Err, Warn, Info, emitAt_fst, skip, hlevel] <;>
    cases T <;> simp [Level.toNat]

/-- Claim C7: from a handle with path `["parent"]`, `New "child"` yields a
handle whose emitted entries carry source `["parent", "child"]`, and
`New "grandchild"` on that child yields `["parent", "child", "grandchild"]`;
in general an emitted entry's `Source` is the emitting handle's own path. -/
theorem c7_child_source_paths (a : List String) (ha : a ≠ []) :
    (Info (New "parent" Level.Everything)
        (Handle.New (New "parent" Level.Everything) Handle.root "child") a).snd
      = some ⟨Level.Info, a, ["parent", "child"]⟩ ∧
    (Info (New "parent" Level.Everything)
        (Handle.New (New "parent" Level.Everything)
          (Handle.New (New "parent" Level.Everything) Handle.root "child")
          "grandchild") a).snd
      = some ⟨Level.Info, a, ["parent", "child", "grandchild"]⟩ ∧
    ∀ (r : RootSt) (h : Handle) (e : Log),
      (Info r h a).snd = some e → e.Source = hsrc r h := by
  refine ⟨?_, ?_, ?_⟩
  · simp [Info, emitAt, skip, hlevel, hsrc, Handle.New, New, Level.toNat, ha]
  · simp [Info, emitAt, skip, hlevel, hsrc, Handle.New, New, Level.toNat, ha]
  · intro r h e he
    unfold Info emitAt at he
    rcases hs : skip r h .Info <;> simp [hs, ha] at he
    simp [← he]

/-- Concrete instantiation of `c7_child_source_paths` at `a = ["x"]`. -/
theorem c7_child_source_paths_witness :
    (["x"] : List String) ≠ [] ∧
    ((Info (New "parent" Level.Everything)
        (Handle.New (New "parent" Level.Everything) Handle.root "child")
        ["x"]).snd
      = some ⟨Level.Info, ["x"], ["parent", "child"]⟩ ∧
    (Info (New "parent" Level.Everything)
        (Handle.New (New "parent" Level.Everything)
          (Handle.New (New "parent" Level.Everything) Handle.root "child")
          "grandchild") ["x"]).snd
      = some ⟨Level.Info, ["x"], ["parent", "child", "grandchild"]⟩ ∧
    ∀ (r : RootSt) (h : Handle) (e : Log),
      (Info r h ["x"]).snd = some e → e.Source = hsrc r h) :=
  ⟨by decide, c7_child_source_paths ["x"] (by decide)⟩

/-! ## Reporters

`logReporter`/`NewLogReporter`/`Stdout` are embedded from the source.  The
wrapped `*log.Logger` is opaque; what matters is which of its methods a
`Log` call invokes and with which arguments, captured as a `LogCall`.  The
`Reporters` fan-out function is referenced by the documentation but its
code is not among the sources, so it is modelled from the spec. -/

/-- The observable effect of `logReporter.Log` on the wrapped standard
logger: a `Println` or a `Fatalln`, with the argument list. -/
inductive LogCall where
  | println (args : List String)
  | fatalln (args : List String)
deriving DecidableEq, Repr

/-- Go struct `logReporter` (the wrapped `*log.Logger` is left opaque). -/
structure logReporter where
  fatal : Bool
deriving DecidableEq, Repr

/-- `NewLogReporter(logger, fatal)` from the source: it constructs
`&logReporter{logger: logger}` — the `fatal` parameter is never stored, so
the field keeps its zero value `false`. -/
def NewLogReporter (fatal : Bool) : logReporter :=
  { fatal := false }

/-- `logReporter.Log`: prepend `strings.Join(log.Source, "➤") + ":"` to the
data, then `Fatalln` if `l.fatal && log.Level == Err`, else `Println`. -/
def logReporter.Log (l : logReporter) (e : Log) : LogCall :=
  let args := (String.intercalate "➤" e.Source ++ ":") :: e.Data
  if l.fatal && (e.Level == Level.Err) then .fatalln args else .println args

/-- `Stdout`: `NewLogReporter(log.New(os.Stdout, "", log.LstdFlags), true)`. -/
def Stdout : logReporter :=
  NewLogReporter true

/-- A reporter as seen by the fan-out combinator: an identified opaque sink,
or a fan-out over an ordered list of reporters. -/
inductive ReporterM where
  | sink (id : Nat)
  | fanout (subs : List ReporterM)

mutual

/-- The sequence of sink invocations (sink id paired with the entry it
receives) that delivering `e` to this reporter performs, in order. -/
def ReporterM.invoke : ReporterM → Log → List (Nat × Log)
  | .sink i, e => [(i, e)]
  | .fanout rs, e => ReporterM.invokeList rs e

/-- Invoke each reporter of the list on `e`, strictly in list order. -/
def ReporterM.invokeList : List ReporterM → Log → List (Nat × Log)
  | [], _ => []
  | r :: rs, e => r.invoke e ++ ReporterM.invokeList rs e

end

/-- Modelled from the spec: the `Reporters(r1, ..., rn)` function is not in
the sources at hand (the documentation references it).  Per the spec it
returns a reporter that, on receiving an entry, invokes each `ri.Log(entry)`
strictly in the given order, synchronously, before returning. -/
def Reporters (rs : List ReporterM) : ReporterM :=
  .fanout rs

/-- Claim C8 (spec-modelled): for every ordered list of sink reporters,
the reporter built by `Reporters` delivers an entry to each sink exactly
once, strictly in the given order, and hands each sink that exact entry. -/
theorem c8_fanout_order (ids : List Nat) (e : Log) :
    (Reporters (ids.map ReporterM.sink)).invoke e
      = ids.map (fun i => (i, e)) := by
  induction ids with
  | nil => rfl
  | cons i rest ih =>
      simpa [Reporters, ReporterM.invoke, ReporterM.invokeList] using
        congrArg (List.cons (i, e)) ih

/-- Claim C9: `NewLogReporter` discards its `fatal` argument, so the
returned reporter's `fatal` flag is `false` for either argument value, its
`Log` performs a `Println` (never a `Fatalln`) on every entry — `Err`-level
entries included even when `fatal` was passed as `true` — and consequently
`Stdout`, built with `fatal = true`, also always performs a `Println`. -/
theorem c9_fatal_discarded (fatal : Bool) (e : Log) :
    (NewLogReporter fatal).fatal = false ∧
    (NewLogReporter fatal).Log e
      = .println ((String.intercalate "➤" e.Source ++ ":") :: e.Data) ∧
    Stdout.Log e
      = .println ((String.intercalate "➤" e.Source ++ ":") :: e.Data) := by
  refine ⟨rfl, ?_, ?_⟩ <;> simp [NewLogReporter, logReporter.Log, Stdout]

/-- Claim C2, evaluated on the code at the failing input.  After `Stop` on
the root and no restart, the claim says every `Info`/`Warn`/`Err` call
returns `false` without panicking.  In the code: an argument-bearing call
whose gate passes sends on the closed channel and PANICS, and a
zero-argument call whose gate passes still returns `true`. -/
theorem c2_emit_after_stop_panics :
    (run (DSys.mk0 "parent" Level.Info)
      [.stop, .emit .root .Info ["x"]]).panicked = true ∧
    (run (DSys.mk0 "parent" Level.Info)
      [.stop, .emit .root .Info []]).results = [true] := by
  decide

/-- Claim C3, evaluated on the code at the failing interleaving.  An entry
is handed to the dispatch channel (rendezvous complete) while reporter 1 is
active; before the consumer reaches `root.r.Log(item)`, `SetReporter 2`
runs to completion; the consumer then reads `root.r` and delivers the
pre-swap entry to the NEW reporter 2, violating the claimed stop/drain
atomicity boundary. -/
theorem c3_preswap_entry_to_new_reporter :
    (run (DSys.mk0 "parent" Level.Info)
      [.setReporter 1, .emit .root .Info ["x"],
       .setReporter 2, .deliver 1]).delivered
      = [(2, { Level := Level.Info, Data := ["x"], Source := ["parent"] })] := by
  decide

/-- Claim C4, evaluated on the code at the failing interleaving.  `Stop`
closes the stop channel itself, immediately: after the `stop` action the
done signal is closed while the consumer goroutine is still alive and still
holding an undelivered entry; and after a waiter has observed the done
signal, the dispatch task still performs a reporter invocation. -/
theorem c4_done_closed_before_consumer_exit :
    (run (DSys.mk0 "parent" Level.Info)
      [.setReporter 1, .emit .root .Info ["x"], .stop]).stopClosed = true ∧
    (run (DSys.mk0 "parent" Level.Info)
      [.setReporter 1, .emit .root .Info ["x"], .stop]).consumers.get? 1
      = some ⟨2, some { Level := Level.Info, Data := ["x"], Source := ["parent"] }, true⟩ ∧
    (run (DSys.mk0 "parent" Level.Info)
      [.setReporter 1, .emit .root .Info ["x"], .stop,
       .waitDone, .deliver 1]).delivered
      = [(1, { Level := Level.Info, Data := ["x"], Source := ["parent"] })] := by
  decide

/-- Claim C5, evaluated on the code at the failing input.  A second `Stop`
with no intervening restart executes `close(root.c)` on the already-closed
channel and PANICS; `Stop` is not idempotent. -/
theorem c5_double_stop_panics :
    (run (DSys.mk0 "parent" Level.Info) [.stop, .stop]).panicked = true := by
  decide

/-- Claim C10: a freshly constructed root has a nil reporter (`New` never
installs one) and is running; the first entry accepted by the dispatch task
before any reporter is set makes the consumer call a method on the nil
interface, a panic.  Once `SetReporter` has run, the same emit is delivered
without panic. -/
theorem c10_fresh_root_nil_reporter :
    (DSys.mk0 "parent" Level.Info).r = none ∧
    (DSys.mk0 "parent" Level.Info).cClosed = false ∧
    (run (DSys.mk0 "parent" Level.Info)
      [.emit .root .Info ["x"], .deliver 0]).panicked = true ∧
    (run (DSys.mk0 "parent" Level.Info)
      [.setReporter 5, .emit .root .Info ["x"], .deliver 1]).panicked = false ∧
    (run (DSys.mk0 "parent" Level.Info)
      [.setReporter 5, .emit .root .Info ["x"], .deliver 1]).delivered
      = [(5, { Level := Level.Info, Data := ["x"], Source := ["parent"] })] := by
  decide

end Slog
